import Mathlib

/-!
Verification of the OmniTrust core against its source.

This file shallowly embeds the two core modules of the repository:

* `src/services/azure_face.py` — strobe-challenge generation
  (`StrobeChallenge.generate_challenge`) and the light-bounce liveness
  classifier (`LivenessVerifier.verify_liveness`);
* `src/forensics/reporter.py` — the cross-layer correlation engine
  (`ForensicInvestigator._apply_decision_matrix`,
  `ForensicInvestigator._identify_correlations`) and the certificate
  builder (`generate_veritas_report`).

Python floats are embedded as `ℚ` (exact arithmetic), Python dictionaries
with a fixed key set as structures, dictionary keys that are present on
some code paths and absent on others as `Option` fields, and fallible
operations as `Except`.  The wall clock (`datetime.now`) is embedded as an
explicit `now : String` argument to the operation that reads it.
-/

namespace OmniTrust

/-! ## Embedding of `src/services/azure_face.py` -/

/-- `LivenessStatus` enum: HUMAN / SPOOF / UNCERTAIN. -/
inductive LivenessStatus where
  | human
  | spoof
  | uncertain
deriving DecidableEq, Repr

/-- `RGBColor` dataclass: three integer components. -/
structure RGBColor where
  r : ℤ
  g : ℤ
  b : ℤ
deriving DecidableEq, Repr

/-- `StrobeFrame` dataclass: one strobe frame with color, timestamp, index. -/
structure StrobeFrame where
  color : RGBColor
  timestamp_ms : ℚ
  frame_index : ℕ
deriving DecidableEq, Repr

/-- `StrobeChallenge.CHALLENGE_COLORS`: the fixed ten-color palette. -/
def CHALLENGE_COLORS : List RGBColor :=
  [⟨255, 0, 0⟩, ⟨0, 255, 0⟩, ⟨0, 0, 255⟩, ⟨255, 255, 0⟩, ⟨255, 0, 255⟩,
   ⟨0, 255, 255⟩, ⟨255, 255, 255⟩, ⟨0, 0, 0⟩, ⟨255, 128, 0⟩, ⟨128, 0, 255⟩]

/-- `StrobeChallenge` object state: flash duration, interval, generated frames. -/
structure StrobeChallenge where
  flash_duration_ms : ℚ
  interval_ms : ℚ
  frames : List StrobeFrame
deriving DecidableEq, Repr

/-- The loop body of `generate_challenge`: walks the color list keeping the
running `current_time` and the running index, emitting one frame per color
and advancing the time by `step = flash_duration_ms + interval_ms`. -/
def genFrames (colors : List RGBColor) (t step : ℚ) (i : ℕ) : List StrobeFrame :=
  match colors with
  | [] => []
  | c :: rest => ⟨c, t, i⟩ :: genFrames rest (t + step) step (i + 1)

/-- `StrobeChallenge.generate_challenge`: emits one frame per color of
`CHALLENGE_COLORS[:10]`, starting at `start_time_ms` and advancing by
`flash_duration_ms + interval_ms` after each frame. -/
def generateChallenge (c : StrobeChallenge) (start_time_ms : ℚ) : List StrobeFrame :=
  genFrames (CHALLENGE_COLORS.take 10) start_time_ms (c.flash_duration_ms + c.interval_ms) 0

/-- `PixelSample` dataclass. -/
structure PixelSample where
  timestamp_ms : ℚ
  intensity : ℚ
  r : ℚ
  g : ℚ
  b : ℚ
  variance : ℚ
deriving DecidableEq, Repr

instance : Inhabited PixelSample := ⟨⟨0, 0, 0, 0, 0, 0⟩⟩

/-- `LivenessVerifier` configuration (constructor arguments). -/
structure LivenessVerifier where
  spike_threshold : ℚ
  smoothing_threshold : ℚ
  specularity_threshold : ℚ
  response_window_ms : ℚ
deriving DecidableEq, Repr

/-- The default `LivenessVerifier()` configuration (0.3, 0.1, 0.05, 50.0). -/
def defaultVerifier : LivenessVerifier := ⟨3/10, 1/10, 1/20, 50⟩

/-- `LivenessVerifier._calculate_variance`: population variance, 0 when fewer
than two values (the Python guard `if not values or len(values) < 2`). -/
def calcVariance (values : List ℚ) : ℚ :=
  if values.length < 2 then 0
  else
    let mean := values.sum / values.length
    ((values.map (fun x => (x - mean) ^ 2)).sum) / values.length

/-- `LivenessVerifier._check_smoothed_transition`: mean absolute consecutive
intensity difference below `smoothing_threshold`.  The `baseline` argument is
accepted but unused, exactly as in the source. -/
def checkSmoothedTransition (smoothing_threshold : ℚ) (baseline : ℚ)
    (response_intensities : List ℚ) : Bool :=
  if response_intensities.length < 3 then false
  else
    let change_rates := (response_intensities.zip response_intensities.tail).map
      (fun p => |p.2 - p.1|)
    if change_rates = [] then false
    else decide (change_rates.sum / change_rates.length < smoothing_threshold)

/-- Stable insertion of a sample into an already timestamp-sorted list; the
new sample goes before every existing sample of ≥ timestamp, which gives the
same order as Python's stable `sorted(..., key=lambda x: x.timestamp_ms)`. -/
def insertSorted (s : PixelSample) : List PixelSample → List PixelSample
  | [] => [s]
  | t :: ts =>
      if t.timestamp_ms < s.timestamp_ms then t :: insertSorted s ts
      else s :: t :: ts

/-- Embedding of `sorted(pixel_samples, key=lambda x: x.timestamp_ms)`
(a stable sort by timestamp). -/
def sortSamples : List PixelSample → List PixelSample
  | [] => []
  | x :: xs => insertSorted x (sortSamples xs)

/-- Accumulator of the per-frame loop of `verify_liveness`: the running
`immediate_spikes` and `smoothed_transitions` counters and the
`specularity_scores` list. -/
structure FrameAcc where
  spikes : ℕ
  smoothed : ℕ
  specs : List ℚ
deriving DecidableEq, Repr

/-- The `baseline_samples` window of a frame: samples with timestamp in
`[frame_start - 50, frame_start)`. -/
def baselineWindow (sorted_samples : List PixelSample) (frame : StrobeFrame) :
    List PixelSample :=
  sorted_samples.filter
    (fun s => decide (frame.timestamp_ms - 50 ≤ s.timestamp_ms ∧
      s.timestamp_ms < frame.timestamp_ms))

/-- The `response_samples` window of a frame: samples with timestamp in
`[frame_start, frame_start + response_window_ms]`. -/
def responseWindow (v : LivenessVerifier) (sorted_samples : List PixelSample)
    (frame : StrobeFrame) : List PixelSample :=
  sorted_samples.filter
    (fun s => decide (frame.timestamp_ms ≤ s.timestamp_ms ∧
      s.timestamp_ms ≤ frame.timestamp_ms + v.response_window_ms))

/-- The per-frame specularity estimate of the source:
`max(variance of response intensities, variance of the samples' own reported
variances)`. -/
def specEstimate (response_samples : List PixelSample) : ℚ :=
  max (calcVariance (response_samples.map (fun s => s.intensity)))
      (calcVariance (response_samples.map (fun s => s.variance)))

/-- One iteration of the `for frame in strobe_challenge.frames` loop of
`verify_liveness`: skips the frame when either window is empty, and otherwise
updates the spike counter, the smoothed-transition counter and the
specularity-score list. -/
def frameStep (v : LivenessVerifier) (sorted_samples : List PixelSample)
    (acc : FrameAcc) (frame : StrobeFrame) : FrameAcc :=
  if baselineWindow sorted_samples frame = [] ∨
      responseWindow v sorted_samples frame = [] then acc
  else
    let baseline_samples := baselineWindow sorted_samples frame
    let response_samples := responseWindow v sorted_samples frame
    let baseline_intensity :=
      (baseline_samples.map (fun s => s.intensity)).sum / baseline_samples.length
    let first_response := response_samples.headI
    let intensity_change := |first_response.intensity - baseline_intensity|
    let spikes' :=
      if intensity_change ≥ v.spike_threshold ∧
          first_response.timestamp_ms - frame.timestamp_ms ≤ 20 then acc.spikes + 1
      else acc.spikes
    let smoothed' :=
      if response_samples.length ≥ 3 ∧
          checkSmoothedTransition v.smoothing_threshold baseline_intensity
            (response_samples.map (fun s => s.intensity)) = true then acc.smoothed + 1
      else acc.smoothed
    ⟨spikes', smoothed', acc.specs ++ [specEstimate response_samples]⟩

/-- The result dictionary of `verify_liveness`.  The keys `spike_ratio` and
`smoothing_ratio` are present only on the full-analysis path of the source, so
they are embedded as `Option` fields (`none` = key absent from the returned
dictionary).  `analysis_no_data` records whether the `analysis` sub-dictionary
is the `{"error": "No pixel samples provided"}` diagnostic. -/
structure LivenessResult where
  status : LivenessStatus
  confidence : ℚ
  immediate_spikes : ℕ
  smoothed_transitions : ℕ
  specularity_score : ℚ
  spike_ratio : Option ℚ
  smoothing_ratio : Option ℚ
  analysis_no_data : Bool
deriving DecidableEq, Repr

/-- The decision chain at the end of `verify_liveness` (spike ratio first,
then smoothing ratio, then specularity, else uncertain).  The division
`avg_specularity / specularity_threshold` is the one division of the source
whose divisor is not guarded, so a zero divisor is embedded as the Python
`ZeroDivisionError`. -/
def applyDecision (v : LivenessVerifier) (spike_ratio smoothing_ratio avg_specularity : ℚ) :
    Except String (LivenessStatus × ℚ) :=
  if spike_ratio > 7/10 then .ok (.human, spike_ratio)
  else if smoothing_ratio > 6/10 then .ok (.spoof, smoothing_ratio)
  else if avg_specularity < v.specularity_threshold ∧ spike_ratio < 1/2 then
    if v.specularity_threshold = 0 then .error "ZeroDivisionError"
    else .ok (.spoof, 1 - avg_specularity / v.specularity_threshold)
  else .ok (.uncertain, max spike_ratio (1 - smoothing_ratio))

/-- The `sorted_samples`/per-frame-loop part of `verify_liveness`: the final
accumulator after folding `frameStep` over the challenge frames, starting from
zero counters and an empty specularity list. -/
def livenessAcc (v : LivenessVerifier) (strobe_challenge : StrobeChallenge)
    (pixel_samples : List PixelSample) : FrameAcc :=
  strobe_challenge.frames.foldl (frameStep v (sortSamples pixel_samples)) ⟨0, 0, []⟩

/-- `sum(specularity_scores)/len(specularity_scores) if specularity_scores
else 0.0`. -/
def avgOf (specs : List ℚ) : ℚ :=
  if specs = [] then 0 else specs.sum / specs.length

/-- `count / total_frames if total_frames > 0 else 0.0`. -/
def ratioOf (count total : ℕ) : ℚ :=
  if 0 < total then (count : ℚ) / total else 0

/-- `LivenessVerifier.verify_liveness`: raises `ValueError` when the challenge
has no frames; returns the UNCERTAIN no-data result when there are no samples;
otherwise runs the per-frame loop over the timestamp-sorted samples, computes
the aggregate ratios and the average specularity, and applies the decision
chain. -/
def verifyLiveness (v : LivenessVerifier) (strobe_challenge : StrobeChallenge)
    (pixel_samples : List PixelSample) : Except String LivenessResult :=
  if strobe_challenge.frames = [] then
    .error "StrobeChallenge must have frames generated"
  else if pixel_samples = [] then
    .ok ⟨.uncertain, 0, 0, 0, 0, none, none, true⟩
  else
    match applyDecision v
      (ratioOf (livenessAcc v strobe_challenge pixel_samples).spikes
        strobe_challenge.frames.length)
      (ratioOf (livenessAcc v strobe_challenge pixel_samples).smoothed
        strobe_challenge.frames.length)
      (avgOf (livenessAcc v strobe_challenge pixel_samples).specs) with
    | .error e => .error e
    | .ok (st, conf) =>
        .ok ⟨st, conf, (livenessAcc v strobe_challenge pixel_samples).spikes,
             (livenessAcc v strobe_challenge pixel_samples).smoothed,
             avgOf (livenessAcc v strobe_challenge pixel_samples).specs,
             some (ratioOf (livenessAcc v strobe_challenge pixel_samples).spikes
               strobe_challenge.frames.length),
             some (ratioOf (livenessAcc v strobe_challenge pixel_samples).smoothed
               strobe_challenge.frames.length),
             false⟩

/-- Modelled from the spec: the decision policy of §4.2 stated in the spec's
own words, including the clamp of rule 3's confidence to [0,1]; to be compared
with the source-derived `applyDecision`. -/
def specPolicy (spike_ratio smoothing_ratio avg_specularity threshold : ℚ) :
    LivenessStatus × ℚ :=
  if spike_ratio > 7/10 then (.human, spike_ratio)
  else if smoothing_ratio > 6/10 then (.spoof, smoothing_ratio)
  else if avg_specularity < threshold ∧ spike_ratio < 1/2 then
    (.spoof, max 0 (min 1 (1 - avg_specularity / threshold)))
  else (.uncertain, max spike_ratio (1 - smoothing_ratio))

/-- The per-frame specularity collection of `verify_liveness` written
directly: for each frame with non-empty baseline and response windows, the
maximum of the variance of the response intensities and the variance of the
response samples' own reported local variances. -/
def specScores (v : LivenessVerifier) (sorted_samples : List PixelSample)
    (frames : List StrobeFrame) : List ℚ :=
  frames.filterMap (fun frame =>
    if baselineWindow sorted_samples frame = [] ∨
        responseWindow v sorted_samples frame = [] then none
    else some (specEstimate (responseWindow v sorted_samples frame)))

/-- Modelled from the spec: the per-frame specularity estimate as the claim
words it — the maximum of the variance of the response intensities and the
MEAN of the response samples' reported local variances; to be compared with
the source-derived `specScores`. -/
def specScoresClaim (v : LivenessVerifier) (sorted_samples : List PixelSample)
    (frames : List StrobeFrame) : List ℚ :=
  frames.filterMap (fun frame =>
    if baselineWindow sorted_samples frame = [] ∨
        responseWindow v sorted_samples frame = [] then none
    else some (max
      (calcVariance ((responseWindow v sorted_samples frame).map
        (fun s => s.intensity)))
      (((responseWindow v sorted_samples frame).map (fun s => s.variance)).sum /
        ((responseWindow v sorted_samples frame).map (fun s => s.variance)).length)))

/-! ## Embedding of `src/forensics/reporter.py` -/

/-- Embedding of Python's `str.lower()`. -/
def pyLower (s : String) : String := ⟨s.data.map Char.toLower⟩

/-- A status field of the incoming payload, which the source accepts either as
a raw string or as an `Enum` member carrying a string `value`. -/
inductive StatusRepr where
  | strv (s : String)
  | enumv (s : String)
deriving DecidableEq, Repr

/-- The string carried by a status representation. -/
def carrier : StatusRepr → String
  | .strv s => s
  | .enumv s => s

/-- The normalization prologue of `_apply_decision_matrix` and
`_identify_correlations`: `str(x).lower() if x else "unknown"`, then
overridden by `x.value.lower()` when `x` has a `value` attribute (an empty
string is falsy in Python, an enum member is truthy). -/
def normalize : StatusRepr → String
  | .strv s => if s = "" then "unknown" else pyLower s
  | .enumv s => pyLower s

/-- `VeritasStatus` enum of the reporter. -/
inductive VeritasStatus where
  | verified
  | inconclusive
  | suspicious
  | manipulated
deriving DecidableEq, Repr

/-- The sensor metrics extracted from the investigation payload at the top of
`analyze_investigation_payload` (defaults already applied by `.get`). -/
structure SensorData where
  ledger_verified : Bool
  ledger_status : String
  sync_risk_level : StatusRepr
  sync_risk_score : ℚ
  sync_mismatch_count : ℕ
  sync_max_delta_ms : ℚ
  network_jitter_ms : ℚ
  liveness_status : StatusRepr
  liveness_confidence : ℚ
  liveness_spike_ratio : ℚ
  liveness_smoothing_ratio : ℚ
  liveness_specularity : ℚ
deriving DecidableEq, Repr

/-- One entry of the `failure_details` list built by `_apply_decision_matrix`
(each constructor is one of the three f-strings appended there, with the
interpolated runtime values as arguments). -/
inductive Note where
  | syncMitigated (network_jitter : ℚ)
  | syncFailedNote (mismatch_count : ℕ) (max_delta : ℚ)
  | livenessFailedNote (status : String) (confidence : ℚ)
deriving DecidableEq, Repr

instance : Inhabited Note := ⟨.syncMitigated 0⟩

/-- Outcome of the failure-counting block of `_apply_decision_matrix`: the
final value of the local `sync_failed`, the `failures` counter and the
`failure_details` list. -/
structure FailureAssessment where
  sync_failed : Bool
  failures : ℕ
  notes : List Note
deriving DecidableEq, Repr

/-- The raw sync-failure condition of `_apply_decision_matrix` (before the
jitter mitigation): risk level high/critical, or max delta above 200 ms, or a
mismatch together with a max delta above 100 ms. -/
def syncFailedRaw (sync_risk_str : String) (sync_mismatch_count : ℕ)
    (sync_max_delta : ℚ) : Prop :=
  sync_risk_str ∈ ["high", "critical"] ∨ sync_max_delta > 200 ∨
    (sync_mismatch_count > 0 ∧ sync_max_delta > 100)

instance (s : String) (n : ℕ) (d : ℚ) : Decidable (syncFailedRaw s n d) := by
  unfold syncFailedRaw; infer_instance

/-- The failure-counting block of `_apply_decision_matrix`: the jitter
override zeroes `sync_failed` and records a mitigation note, otherwise a sync
failure counts once; a liveness status of "spoof" counts once more. -/
def assessFailures (sync_risk_str : String) (sync_mismatch_count : ℕ)
    (sync_max_delta network_jitter : ℚ) (liveness_status_str : String)
    (liveness_confidence : ℚ) : FailureAssessment :=
  let a1 : FailureAssessment :=
    if syncFailedRaw sync_risk_str sync_mismatch_count sync_max_delta ∧
        network_jitter > 50 then
      ⟨false, 0, [.syncMitigated network_jitter]⟩
    else if syncFailedRaw sync_risk_str sync_mismatch_count sync_max_delta then
      ⟨true, 1, [.syncFailedNote sync_mismatch_count sync_max_delta]⟩
    else ⟨false, 0, []⟩
  if liveness_status_str = "spoof" then
    ⟨a1.sync_failed, a1.failures + 1,
     a1.notes ++ [.livenessFailedNote liveness_status_str liveness_confidence]⟩
  else a1

/-- The reasoning string returned by `_apply_decision_matrix`, one constructor
per literal returned by the source, carrying the interpolated values. -/
inductive Reasoning where
  | ledgerMismatch
  | multipleFailures (details : List Note)
  | suspiciousSyncGap (max_delta : ℚ)
  | suspiciousLiveness
  | suspiciousGeneric (detail : Note)
  | inconclusiveNoise (jitter_noted smoothing_noted : Bool)
  | verifiedAllLayers
  | verifiedSyncLiveness
  | inconclusiveMixed
deriving DecidableEq, Repr

/-- Body of `_apply_decision_matrix` after the status normalization: the
priority-ordered decision matrix, returning `(verdict, confidence,
reasoning)`. -/
def decisionCore (ledger_verified : Bool) (ledger_status : String)
    (sync_risk_str : String) (sync_risk_score : ℚ) (sync_mismatch_count : ℕ)
    (sync_max_delta network_jitter : ℚ) (liveness_status_str : String)
    (liveness_confidence liveness_smoothing_ratio : ℚ) :
    VeritasStatus × ℚ × Reasoning :=
  if ledger_verified = false ∧ ledger_status ≠ "hash_not_found" then
    (.manipulated, 95/100, .ledgerMismatch)
  else
    let a := assessFailures sync_risk_str sync_mismatch_count sync_max_delta
      network_jitter liveness_status_str liveness_confidence
    if a.failures ≥ 2 then
      (.manipulated, 85/100 + (a.failures : ℚ) * (5/100), .multipleFailures a.notes)
    else if a.failures = 1 then
      if sync_max_delta > 200 then
        (.suspicious, 75/100, .suspiciousSyncGap sync_max_delta)
      else if liveness_status_str = "spoof" then
        (.suspicious, 70/100, .suspiciousLiveness)
      else
        (.suspicious, 65/100, .suspiciousGeneric a.notes.headI)
    else
      if (network_jitter > 30 ∨
          (sync_risk_score > 3/10 ∧ sync_risk_score < 5/10) ∨
          (liveness_smoothing_ratio > 3/10 ∧ liveness_smoothing_ratio < 6/10)) ∧
          a.failures = 0 then
        (.inconclusive, 60/100,
         .inconclusiveNoise (decide (network_jitter > 30))
           (decide (liveness_smoothing_ratio > 3/10)))
      else if ledger_verified = true ∧ sync_risk_str ∈ ["low", "medium"] ∧
          liveness_status_str = "human" then
        (.verified, 95/100, .verifiedAllLayers)
      else if sync_risk_str ∈ ["low"] ∧ liveness_status_str = "human" then
        (.verified, 85/100, .verifiedSyncLiveness)
      else
        (.inconclusive, 1/2, .inconclusiveMixed)

/-- `ForensicInvestigator._apply_decision_matrix`: normalizes the two status
fields, then runs the decision matrix. -/
def applyDecisionMatrix (d : SensorData) : VeritasStatus × ℚ × Reasoning :=
  decisionCore d.ledger_verified d.ledger_status (normalize d.sync_risk_level)
    d.sync_risk_score d.sync_mismatch_count d.sync_max_delta_ms
    d.network_jitter_ms (normalize d.liveness_status) d.liveness_confidence
    d.liveness_smoothing_ratio

/-- One correlation dictionary of `_identify_correlations` (constructor per
`type` tag, carrying the values stored in its `details`). -/
inductive Correlation where
  | jitterMitigation (sync_delta network_jitter : ℚ)
  | multiLayerFailure
  | sophisticatedSpoof (liveness_status : String) (sync_risk_score : ℚ)
deriving DecidableEq, Repr

/-- Body of `_identify_correlations` after the liveness-status
normalization. -/
def correlationsCore (ledger_verified : Bool)
    (sync_risk_score sync_max_delta network_jitter : ℚ)
    (liveness_status_str : String) : List Correlation :=
  (if sync_max_delta > 50 ∧ network_jitter > 50 then
    [.jitterMitigation sync_max_delta network_jitter] else []) ++
  (if ledger_verified = false ∧ liveness_status_str = "spoof" then
    [.multiLayerFailure] else []) ++
  (if liveness_status_str = "spoof" ∧ sync_risk_score < 4/10 then
    [.sophisticatedSpoof liveness_status_str sync_risk_score] else [])

/-- `ForensicInvestigator._identify_correlations`. -/
def identifyCorrelations (d : SensorData) : List Correlation :=
  correlationsCore d.ledger_verified d.sync_risk_score d.sync_max_delta_ms
    d.network_jitter_ms (normalize d.liveness_status)

/-- The `raw_analysis` dictionary of `analyze_investigation_payload` (the
status fields are stored in their original, un-normalized representation). -/
structure RawAnalysis where
  ledger_status : String
  sync_risk_level : StatusRepr
  liveness_status : StatusRepr
  network_jitter_ms : ℚ
  sync_max_delta_ms : ℚ
deriving DecidableEq, Repr

/-- Return value of `analyze_investigation_payload`. -/
structure AnalysisResult where
  verdict : VeritasStatus
  confidence : ℚ
  reasoning : Reasoning
  correlations : List Correlation
  raw : RawAnalysis
deriving DecidableEq, Repr

/-- `ForensicInvestigator.analyze_investigation_payload` on the extracted
sensor metrics. -/
def analyzePayload (d : SensorData) : AnalysisResult :=
  let t := applyDecisionMatrix d
  ⟨t.1, t.2.1, t.2.2, identifyCorrelations d,
   ⟨d.ledger_status, d.sync_risk_level, d.liveness_status,
    d.network_jitter_ms, d.sync_max_delta_ms⟩⟩

/-- The investigation payload fields read by `generate_veritas_report`
(`investigation_id` and `timestamp` are dictionary keys that may be absent). -/
structure InvestigationPayload where
  investigation_id : Option String
  timestamp : Option String
  sensor_data : SensorData
deriving DecidableEq, Repr

/-- `verdict.value.upper()` of `generate_veritas_report`. -/
def verdictUpper : VeritasStatus → String
  | .verified => "VERIFIED"
  | .inconclusive => "INCONCLUSIVE"
  | .suspicious => "SUSPICIOUS"
  | .manipulated => "MANIPULATED"

/-- The Veritas certificate (`narrative_summary` is a deterministic rendering
of the verdict, confidence, reasoning and correlations; its varying content is
carried by those fields). -/
structure VeritasCertificate where
  certificate_id : String
  timestamp : String
  verdict : String
  confidence_score : ℚ
  reasoning : Reasoning
  correlations : List Correlation
  evidence_sensor : SensorData
  evidence_raw : RawAnalysis
deriving DecidableEq, Repr

/-- `generate_veritas_report`.  The `now` argument embeds the wall clock read
by `datetime.now(timezone.utc)`: the source falls back to it for the
certificate id (when `investigation_id` is absent or falsy, i.e. `None` or the
empty string) and for the certificate timestamp (when the `timestamp` key is
absent). -/
def generateVeritasReport (now : String) (p : InvestigationPayload) :
    VeritasCertificate :=
  let analysis := analyzePayload p.sensor_data
  { certificate_id :=
      match p.investigation_id with
      | some id => if id = "" then "VERITAS-" ++ now else id
      | none => "VERITAS-" ++ now
    timestamp := p.timestamp.getD now
    verdict := verdictUpper analysis.verdict
    confidence_score := analysis.confidence
    reasoning := analysis.reasoning
    correlations := analysis.correlations
    evidence_sensor := p.sensor_data
    evidence_raw := analysis.raw }

/-! ## Theorems -/

/-- Evaluation of the status normalization on the literal "low". -/
lemma normalize_strv_low : normalize (.strv "low") = "low" := by decide

/-- Evaluation of the status normalization on the enum value "spoof". -/
lemma normalize_enumv_spoof : normalize (.enumv "spoof") = "spoof" := by decide

/-- Evaluation of the status normalization on the literal "human". -/
lemma normalize_strv_human : normalize (.strv "human") = "human" := by decide

/-- A population variance is never negative. -/
lemma calcVariance_nonneg (values : List ℚ) : 0 ≤ calcVariance values := by
  unfold calcVariance
  split
  · exact le_refl 0
  · apply div_nonneg
    · apply List.sum_nonneg
      intro x hx
      obtain ⟨y, _, rfl⟩ := List.mem_map.mp hx
      positivity
    · positivity

/-- A per-frame specularity estimate is never negative. -/
lemma specEstimate_nonneg (response_samples : List PixelSample) :
    0 ≤ specEstimate response_samples :=
  le_trans (calcVariance_nonneg _) (le_max_left _ _)

/-- Every collected specularity score is non-negative. -/
lemma specScores_nonneg (v : LivenessVerifier) (sorted : List PixelSample)
    (frames : List StrobeFrame) : ∀ x ∈ specScores v sorted frames, 0 ≤ x := by
  intro x hx
  obtain ⟨f, _, hf⟩ := List.mem_filterMap.mp hx
  by_cases hw : baselineWindow sorted f = [] ∨ responseWindow v sorted f = []
  · rw [if_pos hw] at hf
    exact absurd hf (Option.noConfusion)
  · rw [if_neg hw] at hf
    rw [← Option.some.inj hf]
    exact specEstimate_nonneg _

/-- The average of a list of non-negative rationals is non-negative. -/
lemma avgOf_nonneg (l : List ℚ) (h : ∀ x ∈ l, 0 ≤ x) : 0 ≤ avgOf l := by
  unfold avgOf
  split
  · exact le_refl 0
  · exact div_nonneg (List.sum_nonneg h) (by positivity)

/-- The per-frame loop collects exactly the `specScores` list, appended to
whatever the accumulator already holds. -/
lemma foldl_frameStep_specs (v : LivenessVerifier) (sorted : List PixelSample) :
    ∀ (frames : List StrobeFrame) (acc : FrameAcc),
    (frames.foldl (frameStep v sorted) acc).specs =
      acc.specs ++ specScores v sorted frames := by
  intro frames
  induction frames with
  | nil => intro acc; simp [specScores]
  | cons f fs ih =>
      intro acc
      rw [List.foldl_cons, ih]
      unfold specScores
      rw [List.filterMap_cons]
      by_cases hw : baselineWindow sorted f = [] ∨ responseWindow v sorted f = []
      · rw [if_pos hw]
        unfold frameStep
        rw [if_pos hw]
      · rw [if_neg hw]
        unfold frameStep
        rw [if_neg hw]
        simp [specScores]

/-- The specularity list accumulated by `verify_liveness` is `specScores` of
the sorted samples over the challenge frames. -/
lemma livenessAcc_specs (v : LivenessVerifier) (c : StrobeChallenge)
    (samples : List PixelSample) :
    (livenessAcc v c samples).specs =
      specScores v (sortSamples samples) c.frames := by
  unfold livenessAcc
  rw [foldl_frameStep_specs]
  rfl

/-- On a non-negative average specularity the source's decision chain never
raises and returns exactly the spec's clamped decision policy. -/
lemma applyDecision_eq_specPolicy (v : LivenessVerifier)
    (sr mr avg : ℚ) (havg : 0 ≤ avg) :
    applyDecision v sr mr avg =
      .ok (specPolicy sr mr avg v.specularity_threshold) := by
  unfold applyDecision specPolicy
  split_ifs with h1 h2 h3 h4
  · rfl
  · rfl
  · exact absurd (h4 ▸ h3.1) (not_lt.mpr havg)
  · have hthr : 0 < v.specularity_threshold := lt_of_le_of_lt havg h3.1
    have hq1 : avg / v.specularity_threshold < 1 := (div_lt_one hthr).mpr h3.1
    have hq0 : 0 ≤ avg / v.specularity_threshold := div_nonneg havg hthr.le
    rw [min_eq_right (by linarith), max_eq_right (by linarith)]
  · rfl

/-- Closed form of `verify_liveness` on a challenge with frames and a
non-empty sample list. -/
lemma verifyLiveness_eq (v : LivenessVerifier) (c : StrobeChallenge)
    (samples : List PixelSample) (hf : c.frames ≠ []) (hs : samples ≠ []) :
    verifyLiveness v c samples = .ok
      ⟨(specPolicy (ratioOf (livenessAcc v c samples).spikes c.frames.length)
          (ratioOf (livenessAcc v c samples).smoothed c.frames.length)
          (avgOf (livenessAcc v c samples).specs) v.specularity_threshold).1,
       (specPolicy (ratioOf (livenessAcc v c samples).spikes c.frames.length)
          (ratioOf (livenessAcc v c samples).smoothed c.frames.length)
          (avgOf (livenessAcc v c samples).specs) v.specularity_threshold).2,
       (livenessAcc v c samples).spikes,
       (livenessAcc v c samples).smoothed,
       avgOf (livenessAcc v c samples).specs,
       some (ratioOf (livenessAcc v c samples).spikes c.frames.length),
       some (ratioOf (livenessAcc v c samples).smoothed c.frames.length),
       false⟩ := by
  have havg : 0 ≤ avgOf (livenessAcc v c samples).specs := by
    apply avgOf_nonneg
    rw [livenessAcc_specs]
    exact specScores_nonneg v (sortSamples samples) c.frames
  unfold verifyLiveness
  rw [if_neg hf, if_neg hs, applyDecision_eq_specPolicy v _ _ _ havg]

/-- String literal disequalities used when evaluating the decision matrix on
concrete payloads. -/
lemma low_ne_high : ("low" : String) ≠ "high" := by decide

lemma low_ne_critical : ("low" : String) ≠ "critical" := by decide

lemma spoof_ne_human : ("spoof" : String) ≠ "human" := by decide

lemma human_ne_spoof : ("human" : String) ≠ "spoof" := by decide

/-- Claim C1: for every investigation payload whose ledger summary has
`verified = false` and `status ≠ "hash_not_found"`, the correlation engine
returns verdict MANIPULATED with confidence 0.95, regardless of the values of
the sync and liveness summaries. -/
theorem ledger_mismatch_dominance (d : SensorData)
    (h1 : d.ledger_verified = false) (h2 : d.ledger_status ≠ "hash_not_found") :
    (analyzePayload d).verdict = .manipulated ∧
      (analyzePayload d).confidence = 95/100 := by
  unfold analyzePayload applyDecisionMatrix decisionCore
  rw [if_pos ⟨h1, h2⟩]
  exact ⟨rfl, rfl⟩

/-- Witness for C1: a concrete mismatched-ledger payload (with passing sync
and liveness layers) is judged MANIPULATED at confidence 0.95. -/
theorem ledger_mismatch_dominance_witness :
    (⟨false, "hash_mismatch", .strv "low", 1/10, 0, 10, 5, .strv "human",
      9/10, 8/10, 1/10, 1/10⟩ : SensorData).ledger_verified = false ∧
    ((⟨false, "hash_mismatch", .strv "low", 1/10, 0, 10, 5, .strv "human",
      9/10, 8/10, 1/10, 1/10⟩ : SensorData).ledger_status ≠ "hash_not_found") ∧
    ((analyzePayload ⟨false, "hash_mismatch", .strv "low", 1/10, 0, 10, 5,
      .strv "human", 9/10, 8/10, 1/10, 1/10⟩).verdict = .manipulated ∧
    (analyzePayload ⟨false, "hash_mismatch", .strv "low", 1/10, 0, 10, 5,
      .strv "human", 9/10, 8/10, 1/10, 1/10⟩).confidence = 95/100) :=
  ⟨rfl, by decide, ledger_mismatch_dominance _ rfl (by decide)⟩

/-- Claim C3: whenever the computed sync-failure condition holds and the
network jitter exceeds 50 ms, the decision matrix forces sync to count as not
failed (it contributes nothing to the failure count) and records a mitigation
note; in particular any payload with `max_delta_ms = 150` and
`network_jitter_ms = 80` never counts as a sync failure. -/
theorem jitter_mitigation_override :
    (∀ (s : String) (m : ℕ) (delta jitter conf : ℚ) (l : String),
      syncFailedRaw s m delta → jitter > 50 →
      (assessFailures s m delta jitter l conf).sync_failed = false ∧
      Note.syncMitigated jitter ∈ (assessFailures s m delta jitter l conf).notes ∧
      (assessFailures s m delta jitter l conf).failures =
        (if l = "spoof" then 1 else 0)) ∧
    (∀ d : SensorData, d.sync_max_delta_ms = 150 → d.network_jitter_ms = 80 →
      (assessFailures (normalize d.sync_risk_level) d.sync_mismatch_count
        d.sync_max_delta_ms d.network_jitter_ms (normalize d.liveness_status)
        d.liveness_confidence).sync_failed = false) := by
  constructor
  · intro s m delta jitter conf l hraw hj
    by_cases hl : l = "spoof" <;>
      simp [assessFailures, hraw, hj, hl]
  · intro d h150 h80
    by_cases hraw : syncFailedRaw (normalize d.sync_risk_level)
        d.sync_mismatch_count d.sync_max_delta_ms <;>
      by_cases hl : normalize d.liveness_status = "spoof" <;>
        norm_num [assessFailures, hraw, hl, h80]

/-- Witness for C3: a payload with risk level "low", one mismatch,
`max_delta_ms = 150` and `network_jitter_ms = 80` satisfies the raw
sync-failure condition, yet is assessed as not sync-failed with a mitigation
note recorded. -/
theorem jitter_mitigation_override_witness :
    syncFailedRaw "low" 1 150 ∧ (80 : ℚ) > 50 ∧
    (assessFailures "low" 1 150 80 "human" (9/10)).sync_failed = false ∧
    Note.syncMitigated 80 ∈ (assessFailures "low" 1 150 80 "human" (9/10)).notes ∧
    (assessFailures "low" 1 150 80 "human" (9/10)).failures = 0 ∧
    (assessFailures (normalize (⟨true, "verified", .strv "low", 1/10, 1, 150,
      80, .strv "human", 9/10, 8/10, 1/10, 1/10⟩ : SensorData).sync_risk_level)
      1 150 80 (normalize (StatusRepr.strv "human")) (9/10)).sync_failed
      = false := by
  have h1 := jitter_mitigation_override.1 "low" 1 150 80 (9/10) "human"
    (by unfold syncFailedRaw; norm_num) (by norm_num)
  have h2 := jitter_mitigation_override.2
    ⟨true, "verified", .strv "low", 1/10, 1, 150, 80, .strv "human",
      9/10, 8/10, 1/10, 1/10⟩ rfl rfl
  refine ⟨by unfold syncFailedRaw; norm_num, by norm_num, h1.1, h1.2.1, ?_, h2⟩
  rw [h1.2.2]; decide

/-- The concrete scenario-B payload of the specification: ledger verified,
sync risk LOW with score 0.15, max delta 25 ms, jitter 10 ms, liveness SPOOF
(as the enum member) with confidence 0.85. -/
def scenarioB : SensorData :=
  ⟨true, "verified", .strv "low", 3/20, 0, 25, 10, .enumv "spoof",
   85/100, 1/10, 1/10, 1/10⟩

/-- Claim C7: a `sophisticated_spoof` correlation is emitted whenever the
liveness status normalizes to "spoof" and the sync risk score is below 0.4;
and on the concrete scenario-B payload the verdict is SUSPICIOUS or
MANIPULATED with a `sophisticated_spoof` entry in the correlation list. -/
theorem sophisticated_spoof_correlation :
    (∀ d : SensorData, normalize d.liveness_status = "spoof" →
      d.sync_risk_score < 4/10 →
      Correlation.sophisticatedSpoof "spoof" d.sync_risk_score ∈
        (analyzePayload d).correlations) ∧
    (((analyzePayload scenarioB).verdict = .suspicious ∨
      (analyzePayload scenarioB).verdict = .manipulated) ∧
     Correlation.sophisticatedSpoof "spoof" (3/20) ∈
        (analyzePayload scenarioB).correlations) := by
  constructor
  · intro d hl hs
    simp [analyzePayload, identifyCorrelations, correlationsCore, hl, hs]
  · constructor
    · left
      norm_num [analyzePayload, applyDecisionMatrix, decisionCore,
        assessFailures, syncFailedRaw, scenarioB, normalize_strv_low,
        normalize_enumv_spoof, low_ne_high, low_ne_critical, spoof_ne_human]
    · norm_num [analyzePayload, identifyCorrelations, correlationsCore,
        scenarioB, normalize_strv_low, normalize_enumv_spoof]

/-- Witness for C7: the general `sophisticated_spoof` rule applied to the
concrete scenario-B payload. -/
theorem sophisticated_spoof_correlation_witness :
    normalize scenarioB.liveness_status = "spoof" ∧
    scenarioB.sync_risk_score < 4/10 ∧
    Correlation.sophisticatedSpoof "spoof" scenarioB.sync_risk_score ∈
      (analyzePayload scenarioB).correlations := by
  exact ⟨by decide, by norm_num [scenarioB],
    sophisticated_spoof_correlation.1 scenarioB (by decide)
      (by norm_num [scenarioB])⟩

/-- Counterexample to C4 as stated: with `flash_duration_ms = 0` and
`interval_ms = 0` (inputs the constructor accepts), `generate_challenge` still
returns 10 frames but their timestamps are all equal, so they are not strictly
increasing. -/
theorem strobe_timestamps_counterexample :
    (generateChallenge ⟨0, 0, []⟩ 0).length = 10 ∧
    ¬ List.Chain' (fun a b => a < b)
      ((generateChallenge ⟨0, 0, []⟩ 0).map StrobeFrame.timestamp_ms) := by
  constructor
  · rfl
  · simp [generateChallenge, genFrames, CHALLENGE_COLORS, List.chain'_cons]

/-- Claim C4 (amended: the strictly-increasing part requires
`flash_duration_ms + interval_ms > 0`, as with the defaults 100 ms and
200 ms): `generate_challenge` returns exactly 10 frames, frame `i` carrying
index `i`, the `i`-th palette color, and timestamp
`start + i*(flash_duration + interval)`; the timestamps are strictly
increasing and identical inputs produce identical output. -/
theorem strobe_generate_spec (c : StrobeChallenge) (start : ℚ)
    (h : 0 < c.flash_duration_ms + c.interval_ms) :
    (generateChallenge c start).length = 10 ∧
    (generateChallenge c start).map StrobeFrame.frame_index = List.range 10 ∧
    (generateChallenge c start).map StrobeFrame.color = CHALLENGE_COLORS ∧
    (generateChallenge c start).map StrobeFrame.timestamp_ms =
      (List.range 10).map
        (fun i : ℕ => start + (i : ℚ) * (c.flash_duration_ms + c.interval_ms)) ∧
    List.Chain' (fun a b => a < b)
      ((generateChallenge c start).map StrobeFrame.timestamp_ms) ∧
    generateChallenge c start = generateChallenge c start := by
  refine ⟨rfl, rfl, rfl, ?_, ?_, rfl⟩
  · have h10 : List.range 10 = [0, 1, 2, 3, 4, 5, 6, 7, 8, 9] := rfl
    rw [h10]
    simp only [generateChallenge, genFrames, CHALLENGE_COLORS, List.take,
      List.map_cons, List.map_nil, List.cons.injEq]
    repeat' apply And.intro
    all_goals first
    | trivial
    | (push_cast; ring)
  · simp only [generateChallenge, genFrames, CHALLENGE_COLORS, List.take,
      List.map_cons, List.map_nil, List.chain'_cons, List.chain'_singleton]
    repeat' apply And.intro
    all_goals first
    | linarith
    | trivial

/-- Witness for C4: with the default flash duration (100 ms) and interval
(200 ms), a challenge started at 0 has 10 frames with strictly increasing
timestamps. -/
theorem strobe_generate_spec_witness :
    (0 : ℚ) < (⟨100, 200, []⟩ : StrobeChallenge).flash_duration_ms +
      (⟨100, 200, []⟩ : StrobeChallenge).interval_ms ∧
    (generateChallenge ⟨100, 200, []⟩ 0).length = 10 ∧
    List.Chain' (fun a b => a < b)
      ((generateChallenge ⟨100, 200, []⟩ 0).map StrobeFrame.timestamp_ms) :=
  ⟨by norm_num,
   (strobe_generate_spec ⟨100, 200, []⟩ 0 (by norm_num)).1,
   (strobe_generate_spec ⟨100, 200, []⟩ 0 (by norm_num)).2.2.2.2.1⟩

/-- Claim C2: on every challenge with generated frames and every non-empty
sample list, the classifier's status and confidence are exactly the first
matching rule of the spec's priority list (spike ratio, then smoothing ratio,
then specularity with the clamped confidence, else uncertain), applied to the
computed ratios; in particular a spike ratio above 0.7 always yields HUMAN. -/
theorem liveness_decision_policy (v : LivenessVerifier) (c : StrobeChallenge)
    (samples : List PixelSample) (hf : c.frames ≠ []) (hs : samples ≠ []) :
    ∃ (r : LivenessResult) (sr mr : ℚ),
      verifyLiveness v c samples = .ok r ∧
      r.spike_ratio = some sr ∧ r.smoothing_ratio = some mr ∧
      (r.status, r.confidence) =
        specPolicy sr mr r.specularity_score v.specularity_threshold ∧
      (sr > 7/10 → r.status = .human) := by
  refine ⟨_, _, _, verifyLiveness_eq v c samples hf hs, rfl, rfl, rfl, ?_⟩
  intro h
  show (specPolicy _ _ _ _).1 = LivenessStatus.human
  unfold specPolicy
  rw [if_pos h]

/-- Witness for C2: a one-frame challenge with one baseline and one response
sample satisfies both preconditions, and the classifier output follows the
spec's priority list. -/
theorem liveness_decision_policy_witness :
    ((⟨100, 200, [⟨⟨255, 0, 0⟩, 100, 0⟩]⟩ : StrobeChallenge).frames ≠ [] ∧
     ([⟨60, 1/10, 0, 0, 0, 0⟩, ⟨100, 9/10, 0, 0, 0, 0⟩] :
       List PixelSample) ≠ []) ∧
    (∃ (r : LivenessResult) (sr mr : ℚ),
      verifyLiveness defaultVerifier ⟨100, 200, [⟨⟨255, 0, 0⟩, 100, 0⟩]⟩
        [⟨60, 1/10, 0, 0, 0, 0⟩, ⟨100, 9/10, 0, 0, 0, 0⟩] = .ok r ∧
      r.spike_ratio = some sr ∧ r.smoothing_ratio = some mr ∧
      (r.status, r.confidence) =
        specPolicy sr mr r.specularity_score
          defaultVerifier.specularity_threshold ∧
      (sr > 7/10 → r.status = .human)) :=
  ⟨⟨by simp, by simp⟩,
   liveness_decision_policy defaultVerifier _ _ (by simp) (by simp)⟩

/-- Claim C8: `verify_liveness` fails (with the invalid-argument error) if and
only if the challenge has no generated frames; with frames present, no sample
input makes it raise. -/
theorem liveness_error_iff (v : LivenessVerifier) (c : StrobeChallenge)
    (samples : List PixelSample) :
    (∃ r, verifyLiveness v c samples = .ok r) ↔ c.frames ≠ [] := by
  constructor
  · rintro ⟨r, hr⟩ hfe
    unfold verifyLiveness at hr
    rw [if_pos hfe] at hr
    exact Except.noConfusion hr
  · intro hf
    by_cases hs : samples = []
    · subst hs
      refine ⟨⟨.uncertain, 0, 0, 0, 0, none, none, true⟩, ?_⟩
      unfold verifyLiveness
      rw [if_neg hf, if_pos rfl]
    · exact ⟨_, verifyLiveness_eq v c samples hf hs⟩

/-- Counterexample to C5 as stated: on a frame whose three response samples
have equal intensities (variance 0) and equal reported local variances 0.1,
the source's estimate is `max(0, variance of variances) = 0`, while the
claim's `max(0, mean of variances)` is 0.1; the aggregate specularity score
returned is 0, not 0.1. -/
theorem liveness_specularity_counterexample :
    verifyLiveness defaultVerifier ⟨100, 200, [⟨⟨255, 0, 0⟩, 100, 0⟩]⟩
      [⟨60, 1/2, 0, 0, 0, 0⟩, ⟨100, 1/2, 0, 0, 0, 1/10⟩,
       ⟨110, 1/2, 0, 0, 0, 1/10⟩, ⟨120, 1/2, 0, 0, 0, 1/10⟩] =
      .ok ⟨.spoof, 1, 0, 1, 0, some 0, some 1, false⟩ ∧
    avgOf (specScoresClaim defaultVerifier
      (sortSamples [⟨60, 1/2, 0, 0, 0, 0⟩, ⟨100, 1/2, 0, 0, 0, 1/10⟩,
        ⟨110, 1/2, 0, 0, 0, 1/10⟩, ⟨120, 1/2, 0, 0, 0, 1/10⟩])
      [⟨⟨255, 0, 0⟩, 100, 0⟩]) = 1/10 ∧
    (0 : ℚ) ≠ 1/10 := by
  refine ⟨?_, ?_, by norm_num⟩
  · norm_num [verifyLiveness, livenessAcc, sortSamples, insertSorted,
      frameStep, baselineWindow, responseWindow, specEstimate, calcVariance,
      checkSmoothedTransition, applyDecision, avgOf, ratioOf, List.filter,
      List.headI, defaultVerifier, List.cons_ne_nil]
  · norm_num [specScoresClaim, sortSamples, insertSorted, baselineWindow,
      responseWindow, calcVariance, avgOf, List.filter, List.filterMap,
      defaultVerifier, List.cons_ne_nil]

/-- Claim C5 (amended: the second operand of the per-frame maximum is the
variance of the samples' reported local variances, not their mean): for every
evaluated frame the specularity estimate is
`max(variance of response intensities, variance of reported local variances)`,
and the returned `specularity_score` is the mean of these per-frame estimates
(0 if no frame was evaluated). -/
theorem liveness_specularity_spec (v : LivenessVerifier) (c : StrobeChallenge)
    (samples : List PixelSample) (hf : c.frames ≠ []) (hs : samples ≠ []) :
    ∃ r, verifyLiveness v c samples = .ok r ∧
      r.specularity_score = avgOf (specScores v (sortSamples samples) c.frames) :=
  ⟨_, verifyLiveness_eq v c samples hf hs, by
    show avgOf (livenessAcc v c samples).specs = _
    rw [livenessAcc_specs]⟩

/-- Witness for C5: the amended specularity characterization applied to the
concrete one-frame run. -/
theorem liveness_specularity_spec_witness :
    ((⟨100, 200, [⟨⟨255, 0, 0⟩, 100, 0⟩]⟩ : StrobeChallenge).frames ≠ [] ∧
     ([⟨60, 1/2, 0, 0, 0, 0⟩, ⟨100, 1/2, 0, 0, 0, 1/10⟩] :
       List PixelSample) ≠ []) ∧
    (∃ r, verifyLiveness defaultVerifier ⟨100, 200, [⟨⟨255, 0, 0⟩, 100, 0⟩]⟩
        [⟨60, 1/2, 0, 0, 0, 0⟩, ⟨100, 1/2, 0, 0, 0, 1/10⟩] = .ok r ∧
      r.specularity_score = avgOf (specScores defaultVerifier
        (sortSamples [⟨60, 1/2, 0, 0, 0, 0⟩, ⟨100, 1/2, 0, 0, 0, 1/10⟩])
        (⟨100, 200, [⟨⟨255, 0, 0⟩, 100, 0⟩]⟩ : StrobeChallenge).frames)) :=
  ⟨⟨by simp, by simp⟩,
   liveness_specularity_spec defaultVerifier _ _ (by simp) (by simp)⟩

/-- Counterexample to C6 as stated: the no-samples result of
`verify_liveness` does not carry the `spike_ratio` and `smoothing_ratio`
keys (embedded as `none`), although the claim asserts every classifier output
contains them. -/
theorem liveness_no_data_counterexample :
    (verifyLiveness defaultVerifier ⟨100, 200, [⟨⟨255, 0, 0⟩, 0, 0⟩]⟩ []).map
      (fun r => r.spike_ratio) = .ok none ∧
    (verifyLiveness defaultVerifier ⟨100, 200, [⟨⟨255, 0, 0⟩, 0, 0⟩]⟩ []).map
      (fun r => r.smoothing_ratio) = .ok none := by
  constructor <;> rfl

/-- Claim C6 (amended: the no-data result omits the `spike_ratio` and
`smoothing_ratio` keys): on a challenge with frames and an empty sample list,
`verify_liveness` returns (rather than raises) status UNCERTAIN, confidence 0,
zero counters, zero specularity and the explicit no-data diagnostic. -/
theorem liveness_no_data_fields (v : LivenessVerifier) (c : StrobeChallenge)
    (hf : c.frames ≠ []) :
    verifyLiveness v c [] = .ok ⟨.uncertain, 0, 0, 0, 0, none, none, true⟩ := by
  unfold verifyLiveness
  rw [if_neg hf, if_pos rfl]

/-- Witness for C6: the no-data behaviour on a concrete one-frame
challenge. -/
theorem liveness_no_data_fields_witness :
    ((⟨100, 200, [⟨⟨255, 0, 0⟩, 0, 0⟩]⟩ : StrobeChallenge).frames ≠ []) ∧
    verifyLiveness defaultVerifier ⟨100, 200, [⟨⟨255, 0, 0⟩, 0, 0⟩]⟩ [] =
      .ok ⟨.uncertain, 0, 0, 0, 0, none, none, true⟩ :=
  ⟨by simp, liveness_no_data_fields defaultVerifier _ (by simp)⟩

/-- Counterexample to C9 as stated: on a payload without an investigation id,
`generate_veritas_report` derives the certificate id from the wall clock
(embedded as the `now` argument), so two calls on the identical payload at
different times produce different certificates. -/
theorem certificate_clock_counterexample :
    generateVeritasReport "20250101000000"
      ⟨none, some "2025-01-01T00:00:00+00:00",
       ⟨true, "verified", .strv "low", 1/10, 0, 10, 5, .strv "human",
        9/10, 8/10, 1/10, 1/10⟩⟩ ≠
    generateVeritasReport "20250102000000"
      ⟨none, some "2025-01-01T00:00:00+00:00",
       ⟨true, "verified", .strv "low", 1/10, 0, 10, 5, .strv "human",
        9/10, 8/10, 1/10, 1/10⟩⟩ := by
  intro h
  exact absurd (congrArg VeritasCertificate.certificate_id h) (by decide)

/-- Claim C9 (amended: the certificate builder reads the wall clock whenever
the payload lacks a non-empty investigation id or a timestamp — and
`gather_sensor_data` always stamps payloads with the current time — so
determinism holds for payloads that carry both): for any payload with a
non-empty investigation id and a timestamp, two calls to
`generate_veritas_report` produce identical certificates, whose id is the
investigation id and whose timestamp is the payload's. -/
theorem certificate_determinism (now1 now2 : String) (p : InvestigationPayload)
    (id t : String) (hid : p.investigation_id = some id) (hne : id ≠ "")
    (ht : p.timestamp = some t) :
    generateVeritasReport now1 p = generateVeritasReport now2 p ∧
    (generateVeritasReport now1 p).certificate_id = id ∧
    (generateVeritasReport now1 p).timestamp = t := by
  refine ⟨?_, ?_, ?_⟩ <;>
    simp [generateVeritasReport, hid, ht, hne]

/-- Witness for C9: a payload carrying the id "INV-001" and a timestamp gets
the same certificate from two differently-timed calls. -/
theorem certificate_determinism_witness :
    (⟨some "INV-001", some "2025-01-01T00:00:00+00:00",
      ⟨true, "verified", .strv "low", 1/10, 0, 10, 5, .strv "human",
       9/10, 8/10, 1/10, 1/10⟩⟩ :
        InvestigationPayload).investigation_id = some "INV-001" ∧
    ("INV-001" : String) ≠ "" ∧
    (generateVeritasReport "20250101000000"
      ⟨some "INV-001", some "2025-01-01T00:00:00+00:00",
       ⟨true, "verified", .strv "low", 1/10, 0, 10, 5, .strv "human",
        9/10, 8/10, 1/10, 1/10⟩⟩ =
     generateVeritasReport "20250102000000"
      ⟨some "INV-001", some "2025-01-01T00:00:00+00:00",
       ⟨true, "verified", .strv "low", 1/10, 0, 10, 5, .strv "human",
        9/10, 8/10, 1/10, 1/10⟩⟩ ∧
     (generateVeritasReport "20250101000000"
      ⟨some "INV-001", some "2025-01-01T00:00:00+00:00",
       ⟨true, "verified", .strv "low", 1/10, 0, 10, 5, .strv "human",
        9/10, 8/10, 1/10, 1/10⟩⟩).certificate_id = "INV-001" ∧
     (generateVeritasReport "20250101000000"
      ⟨some "INV-001", some "2025-01-01T00:00:00+00:00",
       ⟨true, "verified", .strv "low", 1/10, 0, 10, 5, .strv "human",
        9/10, 8/10, 1/10, 1/10⟩⟩).timestamp = "2025-01-01T00:00:00+00:00") :=
  ⟨rfl, by decide,
   certificate_determinism "20250101000000" "20250102000000" _ _ _
     rfl (by decide) rfl⟩

/-- Two strings with equal data lists are equal. -/
lemma string_eq_of_data (s t : String) (h : s.data = t.data) : s = t := by
  cases s
  cases t
  exact congrArg String.mk h

/-- Lowercasing yields the empty string only on the empty string. -/
lemma pyLower_eq_empty_iff (s : String) : pyLower s = "" ↔ s = "" := by
  constructor
  · intro h
    have hd := congrArg String.data h
    have : s.data.map Char.toLower = [] := hd
    apply string_eq_of_data
    simpa using List.map_eq_nil_iff.mp this
  · intro h
    subst h
    rfl

/-- On a non-empty carried string, normalization is plain lowercasing for both
representations. -/
lemma normalize_of_ne_empty (a : StatusRepr) (h : carrier a ≠ "") :
    normalize a = pyLower (carrier a) := by
  cases a with
  | strv s => simp [normalize, carrier] at h ⊢; intro hc; exact absurd hc h
  | enumv s => rfl

/-- On an empty carried string, normalization yields "unknown" (raw-string
representation) or "" (enum representation). -/
lemma normalize_of_empty (a : StatusRepr) (h : carrier a = "") :
    normalize a = "unknown" ∨ normalize a = "" := by
  cases a with
  | strv s =>
      left
      simp only [carrier] at h
      simp [normalize, h]
  | enumv s =>
      right
      simp only [carrier] at h
      simp [normalize, h, pyLower]

/-- Two representations whose carried strings agree up to case either
normalize identically, or both carry the empty string. -/
lemma normalize_cases (a b : StatusRepr)
    (h : pyLower (carrier a) = pyLower (carrier b)) :
    normalize a = normalize b ∨ (carrier a = "" ∧ carrier b = "") := by
  by_cases ha : carrier a = ""
  · refine Or.inr ⟨ha, ?_⟩
    rw [← pyLower_eq_empty_iff, ← h, pyLower_eq_empty_iff]
    exact ha
  · left
    have hb : carrier b ≠ "" := by
      intro hb
      apply ha
      rw [← pyLower_eq_empty_iff, h, pyLower_eq_empty_iff]
      exact hb
    rw [normalize_of_ne_empty a ha, normalize_of_ne_empty b hb, h]

/-- The failure-counting block depends on the normalized statuses only through
the high/critical membership of the risk string and the spoof test of the
liveness string. -/
lemma assessFailures_congr (s1 s2 : String) (mism : ℕ) (delta jit : ℚ)
    (l1 l2 : String) (conf : ℚ)
    (hhc : (s1 ∈ ["high", "critical"]) ↔ (s2 ∈ ["high", "critical"]))
    (hsp : (l1 = "spoof") ↔ (l2 = "spoof")) :
    (assessFailures s1 mism delta jit l1 conf).sync_failed =
      (assessFailures s2 mism delta jit l2 conf).sync_failed ∧
    (assessFailures s1 mism delta jit l1 conf).failures =
      (assessFailures s2 mism delta jit l2 conf).failures := by
  have hraw : syncFailedRaw s1 mism delta ↔ syncFailedRaw s2 mism delta := by
    unfold syncFailedRaw
    exact or_congr hhc Iff.rfl
  have hraw2 : (syncFailedRaw s2 mism delta) = (syncFailedRaw s1 mism delta) :=
    propext hraw.symm
  have hsp2 : (l2 = "spoof") = (l1 = "spoof") := propext hsp.symm
  unfold assessFailures
  simp only [hraw2, hsp2]
  by_cases hsf : syncFailedRaw s1 mism delta <;>
    by_cases hj : (50 : ℚ) < jit <;>
      by_cases hl : l1 = "spoof" <;>
        simp [hsf, hj, hl]

/-- The correlation list depends on the liveness string only through the spoof
test (whose carried value is then the literal "spoof" on both sides). -/
lemma correlationsCore_congr (lv : Bool) (score delta jit : ℚ)
    (l1 l2 : String) (hsp : (l1 = "spoof") ↔ (l2 = "spoof")) :
    correlationsCore lv score delta jit l1 =
      correlationsCore lv score delta jit l2 := by
  by_cases h : l1 = "spoof"
  · rw [h, hsp.mp h]
  · have h2 : ¬ l2 = "spoof" := fun hh => h (hsp.mpr hh)
    unfold correlationsCore
    simp [h, h2]

/-- The verdict and the confidence of the decision matrix depend on the
normalized statuses only through the five membership/equality tests. -/
lemma decisionCore_congr (lv : Bool) (ls : String) (s1 s2 : String)
    (score : ℚ) (mism : ℕ) (delta jit : ℚ) (l1 l2 : String)
    (conf smooth : ℚ)
    (hhc : (s1 ∈ ["high", "critical"]) ↔ (s2 ∈ ["high", "critical"]))
    (hlm : (s1 ∈ ["low", "medium"]) ↔ (s2 ∈ ["low", "medium"]))
    (hlo : (s1 ∈ ["low"]) ↔ (s2 ∈ ["low"]))
    (hsp : (l1 = "spoof") ↔ (l2 = "spoof"))
    (hhu : (l1 = "human") ↔ (l2 = "human")) :
    (decisionCore lv ls s1 score mism delta jit l1 conf smooth).1 =
      (decisionCore lv ls s2 score mism delta jit l2 conf smooth).1 ∧
    (decisionCore lv ls s1 score mism delta jit l1 conf smooth).2.1 =
      (decisionCore lv ls s2 score mism delta jit l2 conf smooth).2.1 := by
  obtain ⟨hsf, hfail⟩ := assessFailures_congr s1 s2 mism delta jit l1 l2 conf
    hhc hsp
  unfold decisionCore
  simp only [hfail, hsp, hhu, hlm, hlo]
  split_ifs <;> exact ⟨rfl, rfl⟩

/-- Claim C10: the engine's verdict, confidence and correlation list are
insensitive to the case and representation of the sync risk level and the
liveness status — replacing either by any case variant of the same word, or by
an enum value carrying that string, yields the identical result. -/
theorem status_normalization_invariance (d : SensorData)
    (r1 r2 l1 l2 : StatusRepr)
    (hr : pyLower (carrier r1) = pyLower (carrier r2))
    (hl : pyLower (carrier l1) = pyLower (carrier l2)) :
    (analyzePayload { d with sync_risk_level := r1, liveness_status := l1 }).verdict =
      (analyzePayload { d with sync_risk_level := r2, liveness_status := l2 }).verdict ∧
    (analyzePayload { d with sync_risk_level := r1, liveness_status := l1 }).confidence =
      (analyzePayload { d with sync_risk_level := r2, liveness_status := l2 }).confidence ∧
    (analyzePayload { d with sync_risk_level := r1, liveness_status := l1 }).correlations =
      (analyzePayload { d with sync_risk_level := r2, liveness_status := l2 }).correlations := by
  have hnr := normalize_cases r1 r2 hr
  have hnl := normalize_cases l1 l2 hl
  have hhc : (normalize r1 ∈ ["high", "critical"]) ↔
      (normalize r2 ∈ ["high", "critical"]) := by
    rcases hnr with h | ⟨h1, h2⟩
    · rw [h]
    · rcases normalize_of_empty r1 h1 with e1 | e1 <;>
        rcases normalize_of_empty r2 h2 with e2 | e2 <;>
          rw [e1, e2] <;> decide
  have hlm : (normalize r1 ∈ ["low", "medium"]) ↔
      (normalize r2 ∈ ["low", "medium"]) := by
    rcases hnr with h | ⟨h1, h2⟩
    · rw [h]
    · rcases normalize_of_empty r1 h1 with e1 | e1 <;>
        rcases normalize_of_empty r2 h2 with e2 | e2 <;>
          rw [e1, e2] <;> decide
  have hlo : (normalize r1 ∈ ["low"]) ↔ (normalize r2 ∈ ["low"]) := by
    rcases hnr with h | ⟨h1, h2⟩
    · rw [h]
    · rcases normalize_of_empty r1 h1 with e1 | e1 <;>
        rcases normalize_of_empty r2 h2 with e2 | e2 <;>
          rw [e1, e2] <;> decide
  have hsp : (normalize l1 = "spoof") ↔ (normalize l2 = "spoof") := by
    rcases hnl with h | ⟨h1, h2⟩
    · rw [h]
    · rcases normalize_of_empty l1 h1 with e1 | e1 <;>
        rcases normalize_of_empty l2 h2 with e2 | e2 <;>
          rw [e1, e2] <;> decide
  have hhu : (normalize l1 = "human") ↔ (normalize l2 = "human") := by
    rcases hnl with h | ⟨h1, h2⟩
    · rw [h]
    · rcases normalize_of_empty l1 h1 with e1 | e1 <;>
        rcases normalize_of_empty l2 h2 with e2 | e2 <;>
          rw [e1, e2] <;> decide
  obtain ⟨hv, hc⟩ := decisionCore_congr d.ledger_verified d.ledger_status
    (normalize r1) (normalize r2) d.sync_risk_score d.sync_mismatch_count
    d.sync_max_delta_ms d.network_jitter_ms (normalize l1) (normalize l2)
    d.liveness_confidence d.liveness_smoothing_ratio hhc hlm hlo hsp hhu
  have hcorr := correlationsCore_congr d.ledger_verified d.sync_risk_score
    d.sync_max_delta_ms d.network_jitter_ms (normalize l1) (normalize l2) hsp
  refine ⟨?_, ?_, ?_⟩
  · simp only [analyzePayload, applyDecisionMatrix]
    exact hv
  · simp only [analyzePayload, applyDecisionMatrix]
    exact hc
  · simp only [analyzePayload, identifyCorrelations]
    exact hcorr

/-- Witness for C10: replacing the risk level "LOW" by the enum value "low"
and the liveness status "HUMAN" by "human" leaves verdict, confidence and
correlations unchanged on a concrete payload. -/
theorem status_normalization_invariance_witness :
    pyLower (carrier (.strv "LOW")) = pyLower (carrier (.enumv "low")) ∧
    pyLower (carrier (.strv "HUMAN")) = pyLower (carrier (.strv "human")) ∧
    ((analyzePayload { (⟨true, "verified", .strv "low", 1/10, 0, 10, 5,
        .strv "human", 9/10, 8/10, 1/10, 1/10⟩ : SensorData) with
        sync_risk_level := StatusRepr.strv "LOW",
        liveness_status := StatusRepr.strv "HUMAN" }).verdict =
      (analyzePayload { (⟨true, "verified", .strv "low", 1/10, 0, 10, 5,
        .strv "human", 9/10, 8/10, 1/10, 1/10⟩ : SensorData) with
        sync_risk_level := StatusRepr.enumv "low",
        liveness_status := StatusRepr.strv "human" }).verdict ∧
     (analyzePayload { (⟨true, "verified", .strv "low", 1/10, 0, 10, 5,
        .strv "human", 9/10, 8/10, 1/10, 1/10⟩ : SensorData) with
        sync_risk_level := StatusRepr.strv "LOW",
        liveness_status := StatusRepr.strv "HUMAN" }).confidence =
      (analyzePayload { (⟨true, "verified", .strv "low", 1/10, 0, 10, 5,
        .strv "human", 9/10, 8/10, 1/10, 1/10⟩ : SensorData) with
        sync_risk_level := StatusRepr.enumv "low",
        liveness_status := StatusRepr.strv "human" }).confidence ∧
     (analyzePayload { (⟨true, "verified", .strv "low", 1/10, 0, 10, 5,
        .strv "human", 9/10, 8/10, 1/10, 1/10⟩ : SensorData) with
        sync_risk_level := StatusRepr.strv "LOW",
        liveness_status := StatusRepr.strv "HUMAN" }).correlations =
      (analyzePayload { (⟨true, "verified", .strv "low", 1/10, 0, 10, 5,
        .strv "human", 9/10, 8/10, 1/10, 1/10⟩ : SensorData) with
        sync_risk_level := StatusRepr.enumv "low",
        liveness_status := StatusRepr.strv "human" }).correlations) :=
  ⟨by decide, by decide,
   status_normalization_invariance _ _ _ _ _ (by decide) (by decide)⟩

end OmniTrust
